import Mathlib

/-!
Verification of the change-notification core of the deno_tamperdav WebDAV
server.  The definitions below are a shallow embedding of the TypeScript
source: `src/subscription_handler.ts` (the `FsSubscriber` class,
`toSubscription`, `getTimeoutSeconds`), `src/dav_server/handlers.ts` (the
`subscribe` and `get` handlers and the process-wide void-budget counter) and
`src/dav_server.ts` (`#handleRequest`, `#isAuthorized`).

JavaScript `Set<string>` is embedded as an insertion-ordered duplicate-free
`List String`; JavaScript numbers are embedded as `Int` (all the values
involved are integers) except where the source divides (`lastDiffTime / 1000`),
which is computed in `ℚ` before `Math.floor`.  Asynchrony is embedded by
making the results of the awaited calls explicit oracle parameters.
-/

namespace TamperDav

/-- Boolean prefix test on character lists (helper for the JS string methods). -/
def charListLeads : List Char → List Char → Bool
  | [], _ => true
  | _ :: _, [] => false
  | a :: as, b :: bs => a == b && charListLeads as bs

/-- Embedding of JavaScript `s.startsWith(pre)`. -/
def jsStartsWith (s pre : String) : Bool :=
  charListLeads pre.toList s.toList

/-- Embedding of JavaScript `s.endsWith(suf)`. -/
def jsEndsWith (s suf : String) : Bool :=
  charListLeads suf.toList.reverse s.toList.reverse

/-- Fuel-driven split of a character list on a non-empty separator
(first character `s0`, rest `srest`).  The fuel is always instantiated with
more than the length of the list, so the `0` case is never reached. -/
def splitOnCharsFuel (s0 : Char) (srest : List Char) : Nat → List Char → List (List Char)
  | 0, l => [l]
  | _ + 1, [] => [[]]
  | fuel + 1, c :: rest =>
    if c == s0 && charListLeads srest rest then
      [] :: splitOnCharsFuel s0 srest fuel (rest.drop srest.length)
    else
      match splitOnCharsFuel s0 srest fuel rest with
      | [] => [[c]]
      | h :: t => (c :: h) :: t

/-- Embedding of JavaScript `s.split(sep)` for a non-empty string separator. -/
def jsSplit (sep s : String) : List String :=
  match sep.toList with
  | [] => [s]
  | s0 :: srest =>
    (splitOnCharsFuel s0 srest (s.toList.length + 1) s.toList).map (fun l => String.mk l)

/-- Concatenate a list of strings with a separator (for rebuilding the tail of
a first-occurrence regex capture out of `jsSplit` pieces). -/
def joinSep (sep : String) : List String → String
  | [] => ""
  | [s] => s
  | s :: rest => s ++ sep ++ joinSep sep rest

/-! ## FsSubscriber: subscription matching and the debounced flush

From `src/subscription_handler.ts`.  The `signal` cancellation handle of a
`SubscriptionRequest` is dropped from the embedding: none of the claims below
involves cancellation. -/

/-- Embedding of the `SubscriptionRequest` record (`subscription_handler.ts`,
lines 5-11), minus the `AbortSignal`. -/
structure SubscriptionRequest where
  path : String
  depth : Int
  timeoutSeconds : Int
  deriving DecidableEq, Repr

/-- Embedding of the sub-path test inside `FsSubscriber.#notify`
(`subscription_handler.ts` line 124):
`path.startsWith(request.path + "/") || request.path === "."`. -/
def isSubPath (reqPath c : String) : Bool :=
  jsStartsWith c (reqPath ++ "/") || reqPath == "."

/-- Embedding of `isNotRelated` inside `FsSubscriber.#notify` (line 125):
`path !== request.path && !isSubPath`. -/
def isNotRelated (reqPath c : String) : Bool :=
  c != reqPath && !(isSubPath reqPath c)

/-- The subset of the pending changes that `#notify` collects for one request
(lines 121-131): every pending change that is not filtered out by
`isNotRelated`.  Note the source consults `request.path` only; `request.depth`
is never read here. -/
def matchedPaths (req : SubscriptionRequest) (changes : List String) : List String :=
  changes.filter (fun c => !(isNotRelated req.path c))

/-- The mutable state of one `FsSubscriber`: the pending change set
(`#changes`) and the waiting requests (`#requests`; each carries a live
resolver in `#resolvers`, which the class keeps in lockstep with
`#requests`). -/
structure FsState where
  changes : List String
  requests : List SubscriptionRequest
  deriving DecidableEq, Repr

/-- The resolutions performed by one run of the debounced `#notify` body
(lines 120-139): for each waiting request, the matched subset of the pending
changes, kept only when non-empty. -/
def notifyResolutions (s : FsState) : List (SubscriptionRequest × List String) :=
  s.requests.filterMap (fun r =>
    let paths := matchedPaths r s.changes
    if paths.isEmpty then none else some (r, paths))

/-- One run of the debounced `#notify` body (lines 115-142): if the pending
change set is empty nothing happens; otherwise every waiting request with a
non-empty matched subset is resolved with that subset and the pending set is
cleared. -/
def notifyRun (s : FsState) : FsState × List (SubscriptionRequest × List String) :=
  if s.changes.isEmpty then (s, [])
  else ({ s with changes := [] }, notifyResolutions s)

/-- Embedding of `this.#changes.add(relativePath)` (line 108): JS `Set.add`
keeps insertion order and drops duplicates. -/
def addChange (changes : List String) (c : String) : List String :=
  if c ∈ changes then changes else changes ++ [c]

/-- Accumulate a burst of posted changes into the pending set. -/
def postAll (s : FsState) (paths : List String) : FsState :=
  { s with changes := paths.foldl addChange s.changes }

/-- The times at which the 500 ms debounce wrapping `#notify` (line 142) fires,
given the increasing times at which `#notify` was invoked: each invocation
re-arms the timer to 500 ms from now, so an invocation's timer survives
exactly when the next invocation comes no sooner than 500 ms later. -/
def debounceFires : List Int → List Int
  | [] => []
  | [t] => [t + 500]
  | t :: t' :: rest =>
    (if t + 500 ≤ t' then [t + 500] else []) ++ debounceFires (t' :: rest)

/-- A burst: every invocation time is followed within strictly less than
500 ms by the next one (so each post re-arms the debounce timer before it can
fire). -/
def burstGaps : List Int → Bool
  | [] => true
  | [_] => true
  | t :: t' :: rest => decide (t' < t + 500) && burstGaps (t' :: rest)

/-! ## Header parsing

From `toSubscription` / `getTimeoutSeconds` (`subscription_handler.ts`,
lines 13-28). -/

/-- Embedding of JavaScript `Number(s)` restricted to the optional-sign
decimal integer literals that occur as `timeout`/`depth` header values:
`none` stands for `NaN`.  `Number("") = 0`; a bare sign or a non-digit
yields `NaN`. -/
def jsNumberStr (s : String) : Option Int :=
  let digits : List Char → Option Nat := fun l =>
    if l ≠ [] ∧ l.all (fun c => c.isDigit) then
      some (l.foldl (fun n c => n * 10 + (c.toNat - 48)) 0)
    else none
  match s.toList with
  | [] => some 0
  | '-' :: rest => (digits rest).map (fun n => -(n : Int))
  | '+' :: rest => (digits rest).map (fun n => (n : Int))
  | l => (digits l).map (fun n => (n : Int))

/-- Embedding of `Number(x)` for the nullable result of `headers.get`:
`Number(null) = 0`. -/
def jsNumber : Option String → Option Int
  | none => some 0
  | some s => jsNumberStr s

/-- Embedding of `getTimeoutSeconds` (`subscription_handler.ts` lines 22-24):
`Number(request.headers.get("timeout")) || 60`.  Both `0` and `NaN` are falsy,
so they fall back to 60; every other parsed value (negative included) passes
through. -/
def getTimeoutSeconds (header : Option String) : Int :=
  match jsNumber header with
  | none => 60
  | some n => if n = 0 then 60 else n

/-! ## SubscribeHandler: void budget, clamp and the meta-retry loop

From `src/dav_server/handlers.ts` (lines 7-10 and 160-212).  The results of
the successive awaited `subscriber.subscribe(subscription)` calls are an
explicit oracle `waits : List (List String)`; an empty oracle entry is a wait
that timed out with no matching change.  The embedding is the sequential
semantics: no other request mutates the globals while this one runs, so the
`lastSubscribeRequestTime` read inside the loop is the value this very request
stored on entry. -/

/-- The constant `TAMPERMONKEY_VOID_SUBSCRIBE_COUNT` (`handlers.ts` line 8). -/
def TAMPERMONKEY_VOID_SUBSCRIBE_COUNT : Int := 4

/-- The process-wide mutable module state of `handlers.ts` (lines 9-10):
`subscribeImmediateCount` (the void budget) and `lastSubscribeRequestTime`
(epoch milliseconds of the previous SUBSCRIBE, absent on a cold server). -/
structure HandlerState where
  subscribeImmediateCount : Int
  lastSubscribeRequestTime : Option Int
  deriving DecidableEq, Repr

/-- The state of a cold server: budget 4, no previous SUBSCRIBE. -/
def initialHandlerState : HandlerState :=
  { subscribeImmediateCount := TAMPERMONKEY_VOID_SUBSCRIBE_COUNT,
    lastSubscribeRequestTime := none }

/-- Embedding of the clamp at `handlers.ts` lines 183-185:
`Math.floor(Math.max(0, Math.min(10 - lastDiffTime / 1000, 10)))`.
Computed exactly in integer floor division; the theorem
`clampTimeout_eq_floor` below proves this equal to the floor of the
source's rational expression. -/
def clampTimeout (dMs : Int) : Int :=
  min 10 (max 0 ((10000 - dMs) / 1000))

/-- The possible outcomes of the `subscribe` handler in the embedded fragment:
the PROPFIND fallback of the `lastDiffTime >= 11000` branch, a 204 with no
body, a 207 carrying the matched relative paths (before the optional
meta-touch post-processing), or `pending` when the oracle of wait results is
exhausted while the handler is still looping. -/
inductive SubscribeOutcome where
  | propfindFallback
  | noContent
  | multiStatus (relatives : List String)
  | pending
  deriving DecidableEq, Repr

/-- Embedding of the loop guard `relatives.every((x) => x.endsWith(".meta.json"))`
(`handlers.ts` line 192). -/
def allMeta (relatives : List String) : Bool :=
  relatives.all (fun x => jsEndsWith x ".meta.json")

/-- The `do ... while` loop of the `subscribe` handler (`handlers.ts` lines
180-192), parameterised by the request's arrival time `now`, the stored
`lastSubscribeRequestTime` (already overwritten with `now` by line 170), the
current `subscription.timeoutSeconds` and the oracle of wait results.  Returns
the outcome together with the list of `timeoutSeconds` values the successive
waits were entered with. -/
def subscribeLoop (now : Int) (last : Option Int) :
    Int → List (List String) → SubscribeOutcome × List Int
  | _, [] => (.pending, [])
  | timeoutSeconds, w :: ws =>
    let t := if timeoutSeconds > 0 then clampTimeout (now - last.getD 0) else timeoutSeconds
    if w.isEmpty then (.noContent, [t])
    else if allMeta w then
      let res := subscribeLoop now last t ws
      (res.1, t :: res.2)
    else (.multiStatus w, [t])

/-- The budget restoration at `handlers.ts` line 202: reaching the 207 branch
sets `subscribeImmediateCount` back to 4; every other outcome leaves the
state alone. -/
def applyOutcome (st : HandlerState) (o : SubscribeOutcome) : HandlerState :=
  match o with
  | .multiStatus _ =>
    { st with subscribeImmediateCount := TAMPERMONKEY_VOID_SUBSCRIBE_COUNT }
  | _ => st

/-- Embedding of the `subscribe` handler (`handlers.ts` lines 160-212) on the
process-wide state: computes `lastDiffTime`, stores `now`, applies the
void-budget branch or the PROPFIND fallback, runs the wait loop and restores
the budget on a 207. -/
def subscribeStep (st : HandlerState) (now : Int) (parsedTimeout : Int)
    (waits : List (List String)) : HandlerState × SubscribeOutcome × List Int :=
  let lastDiffTime := now - (st.lastSubscribeRequestTime.getD 0)
  let st1 : HandlerState := { st with lastSubscribeRequestTime := some now }
  if st.subscribeImmediateCount > 0 then
    let st2 : HandlerState :=
      { st1 with subscribeImmediateCount := st.subscribeImmediateCount - 1 }
    let r := subscribeLoop now st2.lastSubscribeRequestTime 0 waits
    (applyOutcome st2 r.1, r.1, r.2)
  else if lastDiffTime ≥ 11000 then (st1, .propfindFallback, [])
  else
    let r := subscribeLoop now st1.lastSubscribeRequestTime parsedTimeout waits
    (applyOutcome st1 r.1, r.1, r.2)

/-- Embedding of the budget line of the `get` handler (`handlers.ts` lines
61-64): `subscribeImmediateCount = Math.max(TAMPERMONKEY_VOID_SUBSCRIBE_COUNT,
subscribeImmediateCount - 1)`. -/
def getBudgetUpdate (st : HandlerState) : HandlerState :=
  { st with
    subscribeImmediateCount :=
      max TAMPERMONKEY_VOID_SUBSCRIBE_COUNT (st.subscribeImmediateCount - 1) }

/-- The process-wide states reachable from a cold server through the embedded
operations that touch the budget: the `subscribe` handler (with any arrival
time, parsed timeout and wait oracle) and the budget line of the `get`
handler. -/
inductive Reachable : HandlerState → Prop
  | init : Reachable initialHandlerState
  | sub {st now parsedTimeout waits} (h : Reachable st) :
      Reachable (subscribeStep st now parsedTimeout waits).1
  | get {st} (h : Reachable st) : Reachable (getBudgetUpdate st)

/-! ## DavServer: response headers and basic-auth check

From `src/dav_server.ts` (`#handleRequest` lines 54-69, `#isAuthorized`
lines 110-119).  A response is its status and header list; `Headers.set`
overwrites an existing header of the same name. -/

/-- An HTTP response: status code and header list. -/
structure HttpResponse where
  status : Nat
  headers : List (String × String)
  deriving DecidableEq, Repr

/-- Embedding of `response.headers.set(k, v)`: replace the value of `k` if
present, append otherwise. -/
def setHeader : List (String × String) → String → String → List (String × String)
  | [], k, v => [(k, v)]
  | (k', v') :: rest, k, v =>
    if k' == k then (k, v) :: rest else (k', v') :: setHeader rest k v

/-- Look up a header value (first match). -/
def getHeader (headers : List (String × String)) (k : String) : Option String :=
  (headers.find? (fun kv => kv.1 == k)).map (fun kv => kv.2)

/-- Embedding of JavaScript truthiness for the optional `username`/`password`
configuration strings: `undefined` and `""` are falsy. -/
def truthy : Option String → Bool
  | none => false
  | some s => s ≠ ""

/-- Embedding of `auth?.match("Basic (.*)")?.[1]`: the unanchored regex
captures everything after the first occurrence of `"Basic "` (header values
contain no newline, so `.*` reaches the end of the string). -/
def matchBasicCapture (a : String) : Option String :=
  match jsSplit "Basic " a with
  | [] => none
  | [_] => none
  | _ :: rest => some (joinSep "Basic " rest)

/-- Embedding of `DavServer.#isAuthorized` (`dav_server.ts` lines 110-119).
The credential text after `"Basic "` is split on `":"` and its first two
pieces are compared against the configured username and password with JS
loose equality (`undefined == undefined` holds); no base64 decoding takes
place. -/
def isAuthorized (username password : Option String) (auth : Option String) : Bool :=
  if !(truthy username || truthy password) then true
  else
    let captured := auth.bind matchBasicCapture
    let parts : List String := (captured.map (jsSplit ":")).getD []
    decide (parts.get? 0 = username) && decide (parts.get? 1 = password)

/-- The `Cache-Control` value set on every dispatched response
(`dav_server.ts` lines 63-66). -/
def cacheControlValue : String :=
  "no-store, no-cache, must-revalidate, post-check=0, pre-check=0"

/-- Embedding of `DavServer.#handleRequest` (`dav_server.ts` lines 54-69):
an unauthorized request is answered 401 with only the `WWW-Authenticate`
header; otherwise the inner handler's response gets `Cache-Control` and
`DAV: 1` set before being returned. -/
def handleRequest (username password : Option String) (auth : Option String)
    (inner : HttpResponse) : HttpResponse :=
  if !(isAuthorized username password auth) then
    { status := 401,
      headers := [("WWW-Authenticate", "Basic realm=\"Enter credentials\"")] }
  else
    { status := inner.status,
      headers := setHeader (setHeader inner.headers "Cache-Control" cacheControlValue) "DAV" "1" }

/-- Character of the standard base64 alphabet at a 6-bit index. -/
def b64Chr (n : Nat) : Char :=
  "ABCDEFGHIJKLMNOPQRSTUVWXYZabcdefghijklmnopqrstuvwxyz0123456789+/".toList.getD n '='

/-- Standard base64 of a byte list, three bytes to four output characters,
with `=` padding. -/
def base64Bytes : List Nat → List Char
  | [] => []
  | [a] => [b64Chr (a / 4), b64Chr (a % 4 * 16), '=', '=']
  | [a, b] => [b64Chr (a / 4), b64Chr (a % 4 * 16 + b / 16), b64Chr (b % 16 * 4), '=']
  | a :: b :: c :: rest =>
    b64Chr (a / 4) :: b64Chr (a % 4 * 16 + b / 16) :: b64Chr (b % 16 * 4 + c / 64) ::
      b64Chr (c % 64) :: base64Bytes rest

/-- Modelled from the spec: the repository treats basic-auth *parsing* on the
client side as an external collaborator, so the wire format of matching Basic
credentials is not in `src/`.  This is standard base64 (RFC 4648) of an ASCII
string, as HTTP Basic authentication (RFC 7617, the `authorization` header
row of the spec) prescribes for the credentials. -/
def base64Encode (s : String) : String :=
  String.mk (base64Bytes (s.toList.map Char.toNat))

/-- Modelled from the spec: the `authorization` header a client carrying
matching Basic credentials sends (RFC 7617). -/
def basicAuthHeader (username password : String) : String :=
  "Basic " ++ base64Encode (username ++ ":" ++ password)

/-- The wait-time formula asserted by the spec for a budget-exhausted SUBSCRIBE
(`timeoutSeconds = max(0, min(10 - gap/1000, 10))`, `gap` the elapsed
milliseconds since the previous SUBSCRIBE arrival), stated from the spec's
words for comparison with the embedded code. -/
def specClampFormula (gapMs : Int) : ℚ :=
  max 0 (min (10 - (gapMs : ℚ) / 1000) 10)

/-- The integer clamp agrees with `Math.floor` of the rational expression in
the source, `Math.floor(Math.max(0, Math.min(10 - lastDiffTime / 1000, 10)))`. -/
theorem clampTimeout_eq_floor (dMs : Int) :
    clampTimeout dMs = Int.floor (max 0 (min (10 - (dMs : ℚ) / 1000) 10)) := by
  have hfmax : ∀ a b : ℚ, Int.floor (max a b) = max (Int.floor a) (Int.floor b) := by
    intro a b
    rcases le_total a b with h | h
    · rw [max_eq_right h, max_eq_right (Int.floor_mono h)]
    · rw [max_eq_left h, max_eq_left (Int.floor_mono h)]
  have hfmin : ∀ a b : ℚ, Int.floor (min a b) = min (Int.floor a) (Int.floor b) := by
    intro a b
    rcases le_total a b with h | h
    · rw [min_eq_left h, min_eq_left (Int.floor_mono h)]
    · rw [min_eq_right h, min_eq_right (Int.floor_mono h)]
  have hdiv : (10 : ℚ) - (dMs : ℚ) / 1000 = ((10000 - dMs : ℤ) : ℚ) / ((1000 : ℕ) : ℚ) := by
    push_cast
    ring
  rw [hfmax, hfmin, hdiv, Rat.floor_intCast_div_natCast]
  have h10 : Int.floor ((10 : ℚ)) = (10 : ℤ) := by
    norm_num
  have h0 : Int.floor ((0 : ℚ)) = (0 : ℤ) := by
    norm_num
  rw [h10, h0, clampTimeout, max_min_distrib_left]
  norm_num [min_comm]

/-! ## Helper lemmas -/

/-- Folding `addChange` over duplicate-free changes disjoint from the
accumulator simply appends them (the JS `Set` keeps them all, in order). -/
theorem foldl_addChange_eq (l : List String) (acc : List String)
    (hd : l.Nodup) (hdisj : ∀ a ∈ l, a ∉ acc) :
    l.foldl addChange acc = acc ++ l := by
  induction l generalizing acc with
  | nil => simp
  | cons a l ih =>
    have hna : a ∉ acc := hdisj a (by simp)
    rw [List.foldl_cons, addChange, if_neg hna,
      ih (acc ++ [a]) (List.nodup_cons.mp hd).2 ?_]
    · simp
    · intro b hb
      simp only [List.mem_append, List.mem_singleton]
      push_neg
      exact ⟨hdisj b (by simp [hb]), fun hba => (List.nodup_cons.mp hd).1 (hba ▸ hb)⟩

/-- If every `#notify` invocation of a burst comes less than 500 ms after the
previous one, the debounce timer fires exactly once, 500 ms after the last
invocation. -/
theorem debounceFires_burst (times : List Int)
    (h : burstGaps times = true) (tl : Int)
    (hl : times.getLast? = some tl) :
    debounceFires times = [tl + 500] := by
  induction times with
  | nil => cases hl
  | cons t rest ih =>
    cases rest with
    | nil =>
      rw [List.getLast?_singleton] at hl
      injection hl with h2
      simp [debounceFires, h2]
    | cons t' rest' =>
      show ((if t + 500 ≤ t' then [t + 500] else []) ++ debounceFires (t' :: rest')) =
        [tl + 500]
      rw [burstGaps, Bool.and_eq_true] at h
      obtain ⟨h1, h2⟩ := h
      have hlt : t' < t + 500 := of_decide_eq_true h1
      rw [if_neg (by omega), List.nil_append]
      exact ih h2 (by rw [← hl, List.getLast?_cons_cons])

/-- Setting a header makes it readable. -/
theorem getHeader_setHeader_self (hs : List (String × String)) (k v : String) :
    getHeader (setHeader hs k v) k = some v := by
  induction hs with
  | nil => simp [setHeader, getHeader]
  | cons kv rest ih =>
    obtain ⟨k', v'⟩ := kv
    rw [setHeader]
    by_cases h : k' == k
    · rw [if_pos h]
      simp [getHeader]
    · rw [if_neg h]
      simpa [getHeader, List.find?, h] using ih

/-- Setting one header leaves the others readable. -/
theorem getHeader_setHeader_ne (hs : List (String × String)) (k k' v' : String)
    (hne : k' ≠ k) : getHeader (setHeader hs k' v') k = getHeader hs k := by
  have hk2 : (k' == k) = false := by simp [hne]
  induction hs with
  | nil => simp [setHeader, getHeader, List.find?, hk2]
  | cons kv rest ih =>
    obtain ⟨k0, v0⟩ := kv
    rw [setHeader]
    by_cases h : k0 == k'
    · rw [if_pos h]
      have hk0k : (k0 == k) = false := by
        have hk0 : k0 = k' := by simpa using h
        simp [hk0, hne]
      simp [getHeader, List.find?, hk0k, hk2]
    · rw [if_neg h]
      by_cases h2 : k0 == k
      · simp [getHeader, List.find?, h2]
      · simpa [getHeader, List.find?, h2] using ih

/-- The budget after `applyOutcome` is either restored to 4 or untouched. -/
theorem applyOutcome_count (s : HandlerState) (o : SubscribeOutcome) :
    (applyOutcome s o).subscribeImmediateCount = 4 ∨
    (applyOutcome s o).subscribeImmediateCount = s.subscribeImmediateCount := by
  cases o <;> simp [applyOutcome, TAMPERMONKEY_VOID_SUBSCRIBE_COUNT]

/-- Case analysis of the effect of one `subscribe` call on the void budget:
restored to 4, untouched, or decremented from a positive value. -/
theorem subscribeStep_count_cases (st : HandlerState) (now pt : Int)
    (waits : List (List String)) :
    (subscribeStep st now pt waits).1.subscribeImmediateCount = 4 ∨
    (subscribeStep st now pt waits).1.subscribeImmediateCount =
      st.subscribeImmediateCount ∨
    (0 < st.subscribeImmediateCount ∧
      (subscribeStep st now pt waits).1.subscribeImmediateCount =
        st.subscribeImmediateCount - 1) := by
  rw [subscribeStep]
  by_cases hpos : st.subscribeImmediateCount > 0
  · rw [if_pos hpos]
    rcases applyOutcome_count
        ⟨st.subscribeImmediateCount - 1, some now⟩
        (subscribeLoop now (some now) 0 waits).1 with h | h
    · exact Or.inl h
    · exact Or.inr (Or.inr ⟨hpos, h⟩)
  · rw [if_neg hpos]
    by_cases hgap : now - st.lastSubscribeRequestTime.getD 0 ≥ 11000
    · rw [if_pos hgap]
      exact Or.inr (Or.inl rfl)
    · rw [if_neg hgap]
      rcases applyOutcome_count
          ⟨st.subscribeImmediateCount, some now⟩
          (subscribeLoop now (some now) pt waits).1 with h | h
      · exact Or.inl h
      · exact Or.inr (Or.inl h)

/-- The wait loop yields a 207 (`multiStatus`) only with a non-empty result
set in which not every path ends in `.meta.json`. -/
theorem subscribeLoop_multiStatus (now : Int) (last : Option Int)
    (waits : List (List String)) :
    ∀ (t : Int) (rs : List String) (ts : List Int),
      subscribeLoop now last t waits = (.multiStatus rs, ts) →
      rs ≠ [] ∧ allMeta rs = false := by
  induction waits with
  | nil =>
    intro t rs ts h
    simp [subscribeLoop] at h
  | cons w ws ih =>
    intro t rs ts h
    simp only [subscribeLoop] at h
    by_cases hw : w.isEmpty
    · rw [if_pos hw] at h
      simp at h
    · rw [if_neg hw] at h
      by_cases hm : allMeta w
      · rw [if_pos hm] at h
        rcases hp : subscribeLoop now last
            (if t > 0 then clampTimeout (now - last.getD 0) else t) ws with ⟨o, ts2⟩
        rw [hp] at h
        simp only [Prod.mk.injEq] at h
        obtain ⟨ho, _⟩ := h
        exact ih _ rs ts2 (by rw [hp, ho])
      · rw [if_neg hm] at h
        simp only [Prod.mk.injEq, SubscribeOutcome.multiStatus.injEq] at h
        obtain ⟨hrs, _⟩ := h
        subst hrs
        refine ⟨?_, by simpa using hm⟩
        intro hnil
        subst hnil
        simp at hw

/-! ## Claims -/

/-- C1 counterexample: a waiting subscription on `"foo"` with depth 0 is in
fact resolved by a flush whose only pending change is the proper descendant
`"foo/bar"`, and that descendant is its whole result set — the claimed
depth-0 exclusion does not happen. -/
theorem depth_zero_descendant_resolves_cex :
    notifyRun ⟨["foo/bar"], [⟨"foo", 0, 60⟩]⟩ =
      (⟨[], [⟨"foo", 0, 60⟩]⟩, [(⟨"foo", 0, 60⟩, ["foo/bar"])]) := by decide

/-- C1 (amended): the `#notify` match ignores `depth` entirely.  Every waiting
subscription on path `p` — with any depth value `d`, 0 included — is resolved
by a flush whose pending changes contain a descendant `p ++ "/" ++ rest`, with
that descendant in its result set. -/
theorem notify_match_ignores_depth (p c : String) (d t : Int) (cs : List String)
    (hc : c ∈ cs) (hpre : jsStartsWith c (p ++ "/") = true) :
    ∃ paths, notifyRun ⟨cs, [⟨p, d, t⟩]⟩ = (⟨[], [⟨p, d, t⟩]⟩, [(⟨p, d, t⟩, paths)]) ∧
      c ∈ paths := by
  have hmem : c ∈ matchedPaths ⟨p, d, t⟩ cs := by
    simp only [matchedPaths, List.mem_filter]
    exact ⟨hc, by simp [isNotRelated, isSubPath, hpre]⟩
  have hcsne : cs.isEmpty = false := by
    cases cs with
    | nil => cases hc
    | cons a l => rfl
  have hpne : matchedPaths ⟨p, d, t⟩ cs ≠ [] := List.ne_nil_of_mem hmem
  refine ⟨matchedPaths ⟨p, d, t⟩ cs, ?_, hmem⟩
  rw [notifyRun, if_neg (by simp [hcsne])]
  simp [notifyResolutions, List.filterMap_cons, hpne]

/-- C1 witness: instantiation of the amended claim at a depth-1 subscription
on `"foo"` and the single pending change `"foo/bar"`. -/
theorem notify_match_ignores_depth_witness :
    ∃ paths, notifyRun ⟨["foo/bar"], [⟨"foo", 1, 60⟩]⟩ =
      (⟨[], [⟨"foo", 1, 60⟩]⟩, [(⟨"foo", 1, 60⟩, paths)]) ∧ "foo/bar" ∈ paths :=
  notify_match_ignores_depth "foo" "foo/bar" 1 60 ["foo/bar"] (by decide) (by decide)

/-- C2: on a cold server the void budget starts at 4, and a SUBSCRIBE arriving
while the budget is positive has its `timeoutSeconds` forced to 0, decrements
the budget, and — when no pending filesystem change resolves its wait — ends
as a 204 with the single wait entered at timeout 0 (so effectively
immediately). -/
theorem void_budget_forces_zero_timeout :
    initialHandlerState.subscribeImmediateCount = 4 ∧
    ∀ (st : HandlerState) (now parsedTimeout : Int) (ws : List (List String)),
      0 < st.subscribeImmediateCount →
      subscribeStep st now parsedTimeout ([] :: ws) =
        (⟨st.subscribeImmediateCount - 1, some now⟩, .noContent, [0]) := by
  refine ⟨rfl, ?_⟩
  intro st now pt ws h
  rw [subscribeStep, if_pos h]
  simp [subscribeLoop, applyOutcome]

/-- C2 witness: the first SUBSCRIBE on a cold server (budget 4) returns 204
immediately with the budget decremented to 3. -/
theorem void_budget_forces_zero_timeout_witness :
    subscribeStep initialHandlerState 0 60 [[]] =
      (⟨initialHandlerState.subscribeImmediateCount - 1, some 0⟩, .noContent, [0]) :=
  void_budget_forces_zero_timeout.2 initialHandlerState 0 60 [] (by decide)

/-- C3: for a burst of posts each arriving less than 500 ms after the
previous one, the debounce timer fires exactly once (500 ms after the last
post), and that single flush resolves the one waiting subscriber exactly once
with the entire set of distinct posted paths while clearing the pending set in
the same step — no partial carry-over. -/
theorem debounce_burst_single_flush (req : SubscriptionRequest)
    (posts : List (Int × String)) (tl : Int)
    (hlast : (posts.map Prod.fst).getLast? = some tl)
    (hburst : burstGaps (posts.map Prod.fst) = true)
    (hnd : (posts.map Prod.snd).Nodup)
    (hmatch : ∀ pr ∈ posts, isNotRelated req.path pr.2 = false) :
    debounceFires (posts.map Prod.fst) = [tl + 500] ∧
    notifyRun (postAll ⟨[], [req]⟩ (posts.map Prod.snd)) =
      (⟨[], [req]⟩, [(req, posts.map Prod.snd)]) := by
  constructor
  · exact debounceFires_burst _ hburst tl hlast
  · have hposts : posts ≠ [] := by
      intro hnil
      rw [hnil] at hlast
      cases hlast
    have hfold : (posts.map Prod.snd).foldl addChange [] = posts.map Prod.snd := by
      simpa using foldl_addChange_eq (posts.map Prod.snd) [] hnd (by simp)
    have hfilter : matchedPaths req (posts.map Prod.snd) = posts.map Prod.snd := by
      rw [matchedPaths, List.filter_eq_self]
      intro c hcmem
      obtain ⟨pr, hpr, rfl⟩ := List.mem_map.mp hcmem
      simp [hmatch pr hpr]
    have hmapne : posts.map Prod.snd ≠ [] := by simp [hposts]
    rw [postAll]
    simp only [hfold]
    rw [notifyRun, if_neg (by simp [hposts])]
    simp [notifyResolutions, List.filterMap_cons, hfilter, hmapne, hposts]

/-- C3 witness: three writes at 0, 100 and 400 ms (all gaps under 500 ms)
under one waiting root subscriber produce a single flush at 900 ms delivering
all three paths and emptying the pending set. -/
theorem debounce_burst_single_flush_witness :
    debounceFires ([((0 : Int), "a"), (100, "b"), (400, "c")].map Prod.fst) = [400 + 500] ∧
    notifyRun (postAll ⟨[], [⟨".", 1, 60⟩]⟩
        ([((0 : Int), "a"), (100, "b"), (400, "c")].map Prod.snd)) =
      (⟨[], [⟨".", 1, 60⟩]⟩,
        [(⟨".", 1, 60⟩, [((0 : Int), "a"), (100, "b"), (400, "c")].map Prod.snd)]) :=
  debounce_burst_single_flush ⟨".", 1, 60⟩ [((0 : Int), "a"), (100, "b"), (400, "c")] 400
    (by decide) (by decide) (by decide) (by decide)

/-- C4 counterexample: with the void budget exhausted, a SUBSCRIBE parsed with
`timeout: 2` whose waits resolve three times with only `x.meta.json` re-enters
the wait each time with a fresh `timeoutSeconds` of 10 — each single re-entry
already exceeding the entire original 2-second budget, so the re-entry budget
is not the remaining wall-clock timeout — and the final 204 comes from a wait
resolving empty, not from that budget reaching 0. -/
theorem meta_retry_budget_cex :
    subscribeStep ⟨0, some 0⟩ 1000 2
        [["x.meta.json"], ["x.meta.json"], ["x.meta.json"], []] =
      (⟨0, some 1000⟩, .noContent, [10, 10, 10, 10]) ∧ ¬ ((10 : Int) ≤ 2) :=
  ⟨by decide, by decide⟩

/-- C4 (amended): a SUBSCRIBE never ends in a 207 whose every path ends with
`.meta.json` — an all-meta resolution is discarded and the wait re-entered —
and a wait resolving with the empty set ends the request as a 204; but the
budget of each wait (re-entries included) is the fresh clamp computation, not
the remaining wall-clock timeout. -/
theorem no_all_meta_result :
    (∀ (st : HandlerState) (now parsedTimeout : Int) (waits : List (List String))
       (st' : HandlerState) (rs : List String) (ts : List Int),
       subscribeStep st now parsedTimeout waits = (st', .multiStatus rs, ts) →
       rs ≠ [] ∧ allMeta rs = false) ∧
    (∀ (now : Int) (last : Option Int) (t : Int) (ws : List (List String)),
       subscribeLoop now last t ([] :: ws) =
         (.noContent, [if t > 0 then clampTimeout (now - last.getD 0) else t])) := by
  constructor
  · intro st now pt waits st' rs ts h
    simp only [subscribeStep] at h
    by_cases hpos : st.subscribeImmediateCount > 0
    · rw [if_pos hpos] at h
      rcases hp : subscribeLoop now (some now) 0 waits with ⟨o, ts2⟩
      rw [hp] at h
      simp only [Prod.mk.injEq] at h
      obtain ⟨_, ho, _⟩ := h
      exact subscribeLoop_multiStatus now (some now) waits 0 rs ts2 (by rw [hp, ho])
    · rw [if_neg hpos] at h
      by_cases hgap : now - st.lastSubscribeRequestTime.getD 0 ≥ 11000
      · rw [if_pos hgap] at h
        simp at h
      · rw [if_neg hgap] at h
        rcases hp : subscribeLoop now (some now) pt waits with ⟨o, ts2⟩
        rw [hp] at h
        simp only [Prod.mk.injEq] at h
        obtain ⟨_, ho, _⟩ := h
        exact subscribeLoop_multiStatus now (some now) waits pt rs ts2 (by rw [hp, ho])
  · intro now last t ws
    simp [subscribeLoop]

/-- C4 witness: a wait sequence of one all-meta resolution then a real change
reaches the 207 with a non-empty, not-all-meta result set. -/
theorem no_all_meta_result_witness :
    (["file.txt"] : List String) ≠ [] ∧ allMeta ["file.txt"] = false :=
  no_all_meta_result.1 ⟨0, some 0⟩ 1000 60 [["a.meta.json"], ["file.txt"]] ⟨4, some 1000⟩
    ["file.txt"] [10, 10] (by decide)

/-- C5 counterexample: with the budget exhausted and 5000 ms since the
previous SUBSCRIBE (< 11 s), the spec's formula
`max(0, min(10 - gap/1000, 10))` yields 5, but the wait is entered with
`timeoutSeconds = 10`: the code recomputes the gap after having already
overwritten `lastSubscribeRequestTime` with this request's own arrival. -/
theorem clamp_gap_cex :
    subscribeStep ⟨0, some 0⟩ 5000 60 [[]] = (⟨0, some 5000⟩, .noContent, [10]) ∧
    specClampFormula 5000 = 5 ∧ ((10 : ℚ) ≠ 5) := by
  refine ⟨by decide, ?_, by norm_num⟩
  have h1 : (10 : ℚ) - ((5000 : Int) : ℚ) / 1000 = 5 := by norm_num
  rw [specClampFormula, h1, min_eq_left (by norm_num : (5 : ℚ) ≤ 10),
    max_eq_right (by norm_num : (0 : ℚ) ≤ 5)]

/-- C5 (amended): when the budget is exhausted, the gap is below 11 s and the
parsed timeout is positive, the wait time used is `clampTimeout` of
`now - lastSubscribeRequestTime` *after* the update (hence of 0), which is
10 seconds — independent of the actual gap to the previous SUBSCRIBE. -/
theorem clamp_uses_updated_timestamp (st : HandlerState) (now parsedTimeout : Int)
    (w : List String) (ws : List (List String))
    (hbudget : ¬ st.subscribeImmediateCount > 0)
    (hgap : ¬ now - st.lastSubscribeRequestTime.getD 0 ≥ 11000)
    (hpt : parsedTimeout > 0) :
    (subscribeStep st now parsedTimeout (w :: ws)).2.2.head? = some (clampTimeout 0) ∧
    clampTimeout 0 = 10 := by
  refine ⟨?_, by decide⟩
  simp only [subscribeStep]
  rw [if_neg hbudget, if_neg hgap]
  simp only [subscribeLoop]
  rw [if_pos hpt]
  have hsub : now - (Option.getD (some now) 0) = 0 := by simp
  rw [hsub]
  by_cases hw : w.isEmpty
  · rw [if_pos hw]
    rfl
  · rw [if_neg hw]
    by_cases hm : allMeta w
    · rw [if_pos hm]
      rfl
    · rw [if_neg hm]
      rfl

/-- C5 witness: instantiation at the counterexample's input 5000 ms gap. -/
theorem clamp_uses_updated_timestamp_witness :
    (subscribeStep ⟨0, some 0⟩ 5000 60 [[]]).2.2.head? = some (clampTimeout 0) ∧
    clampTimeout 0 = 10 :=
  clamp_uses_updated_timestamp ⟨0, some 0⟩ 5000 60 [] [] (by decide) (by decide) (by decide)

/-- C6 counterexample: a `timeout` header of `"0"` parses to 60 (not to an
immediate return — 0 is falsy, so `|| 60` replaces it), and `"-5"` parses to
the negative value −5. -/
theorem timeout_header_zero_cex :
    getTimeoutSeconds (some "0") = 60 ∧ getTimeoutSeconds (some "-5") = -5 ∧
    getTimeoutSeconds (some "-5") < 0 := by decide

/-- C6 (amended): `timeoutSeconds` defaults to 60 when the header is absent
and also when it is `"0"` (or any falsy parse); every other parsed integer —
negative values included — passes through unchanged. -/
theorem timeout_header_parsing :
    getTimeoutSeconds none = 60 ∧ getTimeoutSeconds (some "0") = 60 ∧
    ∀ (s : String) (n : Int), jsNumberStr s = some n → n ≠ 0 →
      getTimeoutSeconds (some s) = n := by
  refine ⟨by decide, by decide, ?_⟩
  intro s n hparse hn
  simp only [getTimeoutSeconds, jsNumber, hparse]
  rw [if_neg hn]

/-- C6 witness: the test suite's `timeout: 90` header parses to 90. -/
theorem timeout_header_parsing_witness :
    getTimeoutSeconds (some "90") = 90 :=
  timeout_header_parsing.2.2 "90" 90 (by decide) (by decide)

/-- C7 counterexample: the 401 produced for an unauthorized request (auth
configured, no `authorization` header) is a server response carrying neither
`Cache-Control` nor `DAV`. -/
theorem unauthorized_missing_headers_cex :
    (handleRequest (some "user") (some "pass") none ⟨204, []⟩).status = 401 ∧
    getHeader (handleRequest (some "user") (some "pass") none ⟨204, []⟩).headers
      "Cache-Control" = none ∧
    getHeader (handleRequest (some "user") (some "pass") none ⟨204, []⟩).headers
      "DAV" = none := by decide

/-- C7 (amended): every response of an authorized request that reaches the
method dispatch carries `Cache-Control: no-store, no-cache, must-revalidate,
post-check=0, pre-check=0` and `DAV: 1`; the 401 unauthorized response (and
the 500 catch-all of `logAndHandleRequest`) do not pass through this header
stamping. -/
theorem authorized_responses_have_headers (username password auth : Option String)
    (inner : HttpResponse)
    (hauth : isAuthorized username password auth = true) :
    getHeader (handleRequest username password auth inner).headers "Cache-Control" =
      some cacheControlValue ∧
    getHeader (handleRequest username password auth inner).headers "DAV" = some "1" ∧
    (handleRequest username password auth inner).status = inner.status := by
  simp only [handleRequest, hauth, Bool.not_true, Bool.false_eq_true, if_false]
  refine ⟨?_, getHeader_setHeader_self .., trivial⟩
  rw [getHeader_setHeader_ne _ _ "DAV" "1" (by decide)]
  exact getHeader_setHeader_self ..

/-- C7 witness: with no credentials configured every request is authorized,
and a 204 inner response comes out stamped with both headers. -/
theorem authorized_responses_have_headers_witness :
    getHeader (handleRequest none none none ⟨204, []⟩).headers "Cache-Control" =
      some cacheControlValue ∧
    getHeader (handleRequest none none none ⟨204, []⟩).headers "DAV" = some "1" ∧
    (handleRequest none none none ⟨204, []⟩).status =
      (⟨204, ([] : List (String × String))⟩ : HttpResponse).status :=
  authorized_responses_have_headers none none none ⟨204, []⟩ (by decide)

/-- C8 counterexample: with username `user` and password `pass` configured, a
request carrying the standard matching Basic credential
`Basic base64("user:pass")` is rejected with 401 — `#isAuthorized` compares
the base64 text itself against the configured strings without decoding. -/
theorem basic_auth_base64_rejected_cex :
    isAuthorized (some "user") (some "pass")
      (some (basicAuthHeader "user" "pass")) = false ∧
    (handleRequest (some "user") (some "pass")
      (some (basicAuthHeader "user" "pass")) ⟨204, []⟩).status = 401 := by decide

/-- C8 (amended): with credentials configured, any request whose
`authorization` header fails the (non-decoding) comparison is answered 401
with `WWW-Authenticate: Basic realm="Enter credentials"`; the comparison
accepts exactly the *plain-text* form `Basic username:password`, not the
base64-encoded standard form. -/
theorem auth_mismatch_401 :
    (∀ (username password auth : Option String) (inner : HttpResponse),
       isAuthorized username password auth = false →
       handleRequest username password auth inner =
         ⟨401, [("WWW-Authenticate", "Basic realm=\"Enter credentials\"")]⟩) ∧
    isAuthorized (some "user") (some "pass") (some "Basic user:pass") = true := by
  refine ⟨?_, by decide⟩
  intro username password auth inner h
  simp [handleRequest, h]

/-- C8 witness: wrong password in the plain-text form is answered with the
401 response carrying the `WWW-Authenticate` challenge. -/
theorem auth_mismatch_401_witness :
    handleRequest (some "user") (some "pass") (some "Basic user:wrong") ⟨204, []⟩ =
      ⟨401, [("WWW-Authenticate", "Basic realm=\"Enter credentials\"")]⟩ :=
  auth_mismatch_401.1 (some "user") (some "pass") (some "Basic user:wrong") ⟨204, []⟩
    (by decide)

/-- C9: a SUBSCRIBE that completes with the 207 result restores the void
budget to 4, and the `get` handler updates the budget to
`max(4, previous - 1)`. -/
theorem budget_restore_and_get :
    (∀ (st : HandlerState) (now parsedTimeout : Int) (waits : List (List String))
       (st' : HandlerState) (rs : List String) (ts : List Int),
       subscribeStep st now parsedTimeout waits = (st', .multiStatus rs, ts) →
       st'.subscribeImmediateCount = 4) ∧
    ∀ st : HandlerState,
      (getBudgetUpdate st).subscribeImmediateCount =
        max 4 (st.subscribeImmediateCount - 1) := by
  constructor
  · intro st now pt waits st' rs ts h
    simp only [subscribeStep] at h
    by_cases hpos : st.subscribeImmediateCount > 0
    · rw [if_pos hpos] at h
      rcases hp : subscribeLoop now (some now) 0 waits with ⟨o, ts2⟩
      rw [hp] at h
      simp only [Prod.mk.injEq] at h
      obtain ⟨h1, ho, _⟩ := h
      rw [← h1, ho]
      rfl
    · rw [if_neg hpos] at h
      by_cases hgap : now - st.lastSubscribeRequestTime.getD 0 ≥ 11000
      · rw [if_pos hgap] at h
        simp at h
      · rw [if_neg hgap] at h
        rcases hp : subscribeLoop now (some now) pt waits with ⟨o, ts2⟩
        rw [hp] at h
        simp only [Prod.mk.injEq] at h
        obtain ⟨h1, ho, _⟩ := h
        rw [← h1, ho]
        rfl
  · intro st
    rfl

/-- C9 witness: a budget-exhausted SUBSCRIBE resolved with `file.txt` ends
with the budget restored to 4. -/
theorem budget_restore_and_get_witness :
    (⟨4, some 1000⟩ : HandlerState).subscribeImmediateCount = 4 :=
  budget_restore_and_get.1 ⟨0, some 0⟩ 1000 60 [["file.txt"]] ⟨4, some 1000⟩
    ["file.txt"] [10] (by decide)

/-- C10: the process-wide void budget stays within 0..4 in every state
reachable from the cold server through `subscribe` and `get` operations, and
from any such state a `get` leaves it at exactly 4. -/
theorem budget_invariant (st : HandlerState) (h : Reachable st) :
    0 ≤ st.subscribeImmediateCount ∧ st.subscribeImmediateCount ≤ 4 ∧
    (getBudgetUpdate st).subscribeImmediateCount = 4 := by
  have hmain : 0 ≤ st.subscribeImmediateCount ∧ st.subscribeImmediateCount ≤ 4 := by
    induction h with
    | init => exact ⟨by decide, by decide⟩
    | @sub st0 now pt waits hst ih =>
      rcases subscribeStep_count_cases st0 now pt waits with hc | hc | ⟨hpos, hc⟩ <;> omega
    | @get st0 hst ih =>
      simp only [getBudgetUpdate, TAMPERMONKEY_VOID_SUBSCRIBE_COUNT]
      constructor
      · exact le_trans (by norm_num) (le_max_left 4 (st0.subscribeImmediateCount - 1))
      · exact max_le (by norm_num) (by omega)
  refine ⟨hmain.1, hmain.2, ?_⟩
  simp only [getBudgetUpdate, TAMPERMONKEY_VOID_SUBSCRIBE_COUNT]
  have h4 := hmain.2
  exact max_eq_left (by omega)

/-- C10 witness: the invariant at the cold-server state itself. -/
theorem budget_invariant_witness :
    0 ≤ initialHandlerState.subscribeImmediateCount ∧
    initialHandlerState.subscribeImmediateCount ≤ 4 ∧
    (getBudgetUpdate initialHandlerState).subscribeImmediateCount = 4 :=
  budget_invariant initialHandlerState Reachable.init

end TamperDav
